import Mathlib

/-!
Shallow embedding of `pkg/driver/kubernetes/run.go` (devpod Kubernetes driver).

The Go file implements the lifecycle driver for a devcontainer pod:
`RunDevContainer`, the shared `runContainer` routine, `getVolumeMount`,
and `StartDevContainer`.  Remote calls (kubectl invocations) are modelled
as a trace of `RemoteOp` values; their outcomes come from a `World`
oracle.  Helper functions that live in other files of the repository
(`getID`, `config.ParseMount`, `getInitContainer`,
`docker.GetContainerEntrypointAndArgs`, `parseResources`, `parseLabels`)
are modelled as an explicit `Collaborators` record of functions, since
only their call sites are in the source under consideration.
-/

namespace KubernetesDriver

/-- Embeds Go `config.Mount`: a devcontainer mount with a source, a target and a
type string (`"bind"`, `"volume"`, or anything else). -/
structure Mount where
  Source : String
  Target : String
  Type_ : String
deriving DecidableEq, Repr

/-- Embeds Go `config.DevContainerConfig`, restricted to the single field the
source file reads (`parsedConfig.Origin`, used as the working directory
of the copy command). -/
structure DevContainerConfig where
  Origin : String
deriving DecidableEq, Repr

/-- Embeds Go `config.MergedDevContainerConfig`, restricted to the fields the
source file reads: mounts, container environment, additive capabilities
and the privileged flag (a nullable bool in Go). -/
structure MergedDevContainerConfig where
  Mounts : List Mount
  ContainerEnv : List (String × String)
  CapAdd : List String
  Privileged : Option Bool
deriving DecidableEq, Repr

/-- Embeds Go `config.ImageDetails`: entrypoint/command defaults from the image.
Only passed through to the entrypoint collaborator. -/
structure ImageDetails where
  Entrypoint : List String
  Cmd : List String
deriving DecidableEq, Repr

/-- Embeds `corev1.Capabilities`, restricted to the additive list built by the
source (`capabilities.Add`). -/
structure Capabilities where
  Add : List String
deriving DecidableEq, Repr

/-- Embeds `corev1.SecurityContext`, restricted to the fields the source sets. -/
structure SecurityContext where
  Capabilities : Option Capabilities
  Privileged : Option Bool
  RunAsUser : Option Int
  RunAsGroup : Option Int
  RunAsNonRoot : Option Bool
deriving DecidableEq, Repr

/-- Embeds `corev1.VolumeMount`, restricted to the fields the source sets. -/
structure VolumeMount where
  Name : String
  MountPath : String
  SubPath : String
deriving DecidableEq, Repr

/-- Embeds `corev1.ResourceRequirements` as produced by the external
`parseResources` helper; kept abstract as request/limit lists. -/
structure ResourceRequirements where
  Requests : List (String × String)
  Limits : List (String × String)
deriving DecidableEq, Repr

/-- Embeds `corev1.Container`, restricted to the fields the source sets. -/
structure Container where
  Name : String
  Image : String
  Command : List String
  Args : List String
  Env : List (String × String)
  Resources : ResourceRequirements
  VolumeMounts : List VolumeMount
  SecurityContext : Option SecurityContext
deriving DecidableEq, Repr

/-- Embeds `corev1.Volume`, restricted to the persistent-volume-claim source the
source file uses. -/
structure PodVolume where
  Name : String
  ClaimName : String
deriving DecidableEq, Repr

/-- Embeds `corev1.Pod`, restricted to the fields the source sets. -/
structure Pod where
  Name : String
  Labels : List (String × String)
  ServiceAccountName : String
  InitContainers : List Container
  Containers : List Container
  RestartPolicy : String
  Volumes : List PodVolume
  NodeSelector : List (String × String)
deriving DecidableEq, Repr

/-- Embeds `DevContainerInfo`: the snapshot persisted on the volume. -/
structure DevContainerInfo where
  ParsedConfig : DevContainerConfig
  MergedConfig : MergedDevContainerConfig
  ImageDetails : ImageDetails
  ImageName : String
  WorkspaceMount : String
  Labels : List String
deriving DecidableEq, Repr

/-- The fixed ownership label set `DevPodLabels`. -/
def DevPodLabels : List (String × String) := [("devpod.sh/created", "true")]

/-- The errors `RunDevContainer` / `runContainer` / `StartDevContainer`
can return, one constructor per distinct `return err` site. -/
inductive DriverError where
  | idError (msg : String)
  | lookupError (msg : String)
  | createVolumeError (msg : String)
  | configError (msg : String)
  | initContainerError (msg : String)
  | serviceAccountError (msg : String)
  | nodeSelectorError (msg : String)
  | createPodError (msg : String)
  | startupError (msg : String)
  | copyError (msg : String)
  | notFoundError (id : String)
deriving DecidableEq, Repr

/-- One remote (kubectl) operation issued by the driver, in the order it
is issued.  `copy` carries the working directory (`parsedConfig.Origin`
in the source, passed through `filepath.Dir`), and the already-processed
source and `id:target` arguments of `kubectl cp -c devpod`. -/
inductive RemoteOp where
  | createNamespace (ns : String)
  | getPvc (id : String)
  | createPvc (id : String)
  | createServiceAccount (id : String) (name : String)
  | createPod (pod : Pod)
  | waitPodRunning (id : String)
  | copy (origin : String) (source : String) (target : String)
deriving DecidableEq, Repr

/-- Collaborator functions from other files of the repository, abstracted
as inputs: identity derivation, mount-string parsing, init-container
construction, entrypoint/args resolution, resource parsing and
node-selector parsing. -/
structure Collaborators where
  getID : List String → Except String String
  ParseMount : String → Mount
  getInitContainer : MergedDevContainerConfig → String → Except String (List Container)
  GetContainerEntrypointAndArgs : MergedDevContainerConfig → ImageDetails → String × List String
  parseResources : String → ResourceRequirements
  parseLabels : String → Except String (List (String × String))

/-- The driver configuration fields the source reads
(`k.namespace`, `k.config.*`). -/
structure DriverConfig where
  CreateNamespace : String
  ServiceAccount : String
  NodeSelector : String
  Resources : String
deriving DecidableEq, Repr

/-- The `kubernetesDriver` receiver: namespace, configuration and the
collaborator functions it links against. -/
structure Driver where
  namespace_ : String
  config : DriverConfig
  collab : Collaborators

/-- Oracle for the outcome of each remote operation.  The volume lookup
(`getDevContainerPvc`, defined outside this file) is modelled from the
spec: a missing volume or an unparseable snapshot both report "not
found" (`Except.ok none`); success reports the deserialized
`DevContainerInfo`.  Copy outcomes are indexed by the position of the
copy in the copy list. -/
structure World where
  pvcLookup : Except String (Option DevContainerInfo)
  createPvcResult : Except String Unit
  createSaResult : Except String Unit
  createPodResult : Except String Unit
  waitResult : Except String Unit
  copyResults : Nat → Except String Unit

/-- Go `strings.TrimRight(s, "/")`: drop every trailing slash. -/
def trimRightSlash (s : String) : String :=
  String.mk (s.toList.reverse.dropWhile (fun c => c = '/')).reverse

/-- Embeds `getVolumeMount`: the volume mount for slot `idx`; the sub-path is
the mount's source for named `volume` mounts, the decimal slot index
otherwise, always under `devpod/`. -/
def getVolumeMount (idx : Nat) (mount : Mount) : VolumeMount :=
  let subPath := if mount.Type_ = "volume" ∧ mount.Source ≠ "" then mount.Source else toString idx
  { Name := "devpod", MountPath := mount.Target, SubPath := "devpod/" ++ subPath }

/-- The mount loop of `runContainer`, from slot `idx` on: `bind` mounts
contribute to both the copy list and the volume mounts, `volume` mounts
only to the volume mounts, anything else is skipped with a warning.
Returns (copy list tail, volume mount tail). -/
def collectMounts : Nat → List Mount → List Mount × List VolumeMount
  | _, [] => ([], [])
  | idx, m :: rest =>
    let (cs, vs) := collectMounts (idx + 1) rest
    let vm := getVolumeMount idx m
    if m.Type_ = "bind" then (m :: cs, vm :: vs)
    else if m.Type_ = "volume" then (cs, vm :: vs)
    else (cs, vs)

/-- The `copyFromLocal` list as built by `runContainer`: the workspace mount
first, then the `bind` mounts in declared order. -/
def copyFromLocalOf (wsMount : Mount) (mounts : List Mount) : List Mount :=
  wsMount :: (collectMounts 1 mounts).1

/-- The `volumeMounts` list as built by `runContainer`: slot 0 for the workspace
mount, slot `i + 1` for the mount at declared position `i`. -/
def volumeMountsOf (wsMount : Mount) (mounts : List Mount) : List VolumeMount :=
  getVolumeMount 0 wsMount :: (collectMounts 1 mounts).2

/-- The capabilities block: `nil` unless `CapAdd` is non-empty, in which
case each name is added one-to-one. -/
def mkCapabilities (capAdd : List String) : Option Capabilities :=
  if capAdd.length > 0 then some { Add := capAdd } else none

/-- The pod manifest assembled by `runContainer` (before the node
selector is filled in). -/
def buildPod (k : Driver) (id : String) (mergedConfig : MergedDevContainerConfig)
    (imageName : String) (imageDetails : ImageDetails)
    (initContainer : List Container) (serviceAccount : String)
    (volumeMounts : List VolumeMount) : Pod :=
  let ea := k.collab.GetContainerEntrypointAndArgs mergedConfig imageDetails
  { Name := id
    Labels := DevPodLabels
    ServiceAccountName := serviceAccount
    InitContainers := initContainer
    Containers := [
      { Name := "devpod"
        Image := imageName
        Command := [ea.1]
        Args := ea.2
        Env := mergedConfig.ContainerEnv
        Resources := k.collab.parseResources k.config.Resources
        VolumeMounts := volumeMounts
        SecurityContext := some
          { Capabilities := mkCapabilities mergedConfig.CapAdd
            Privileged := mergedConfig.Privileged
            RunAsUser := some 0
            RunAsGroup := some 0
            RunAsNonRoot := some false } }]
    RestartPolicy := "Never"
    Volumes := [{ Name := "devpod", ClaimName := id }]
    NodeSelector := [] }

/-- One copy operation of the seeding loop: working directory from the
parsed config origin, source with trailing slashes stripped plus `/.`,
target `id:path` with trailing slashes stripped. -/
def copyOp (origin id : String) (m : Mount) : RemoteOp :=
  RemoteOp.copy origin (trimRightSlash m.Source ++ "/.")
    (id ++ ":" ++ trimRightSlash m.Target)

/-- The seeding loop over `copyFromLocal`, starting at copy index `i`:
each copy is issued in order and the first failure aborts with the
wrapped copy error. -/
def doCopies (w : World) (origin id : String) : Nat → List Mount →
    List RemoteOp × Except DriverError Unit
  | _, [] => ([], Except.ok ())
  | i, m :: rest =>
    match w.copyResults i with
    | Except.error e => ([copyOp origin id m], Except.error (DriverError.copyError e))
    | Except.ok _ =>
      let (ops, r) := doCopies w origin id (i + 1) rest
      (copyOp origin id m :: ops, r)

/-- Embeds `runContainer`: validate the workspace mount, build the init
container when initializing, collect mounts, create the service account
when configured, assemble and submit the pod, wait for it to run, and
seed data on first initialization. -/
def runContainer (k : Driver) (w : World) (id : String)
    (parsedConfig : DevContainerConfig) (mergedConfig : MergedDevContainerConfig)
    (imageName : String) (workspaceMount : String) (imageDetails : ImageDetails)
    (initFlag : Bool) : List RemoteOp × Except DriverError Unit :=
  let mount := k.collab.ParseMount workspaceMount
  if mount.Target = "" then
    ([], Except.error (DriverError.configError "workspace mount target is empty"))
  else
    match (if initFlag then k.collab.getInitContainer mergedConfig imageName
           else Except.ok []) with
    | Except.error e => ([], Except.error (DriverError.initContainerError e))
    | Except.ok initContainer =>
      let copyFromLocal := copyFromLocalOf mount mergedConfig.Mounts
      let volumeMounts := volumeMountsOf mount mergedConfig.Mounts
      let serviceAccount := if k.config.ServiceAccount ≠ "" then k.config.ServiceAccount else ""
      let saOps : List RemoteOp :=
        if k.config.ServiceAccount ≠ "" then [RemoteOp.createServiceAccount id serviceAccount]
        else []
      let saResult : Except String Unit :=
        if k.config.ServiceAccount ≠ "" then w.createSaResult else Except.ok ()
      match saResult with
      | Except.error e => (saOps, Except.error (DriverError.serviceAccountError e))
      | Except.ok _ =>
        let pod := buildPod k id mergedConfig imageName imageDetails initContainer
          serviceAccount volumeMounts
        match (if k.config.NodeSelector ≠ "" then
                 (k.collab.parseLabels k.config.NodeSelector).map some
               else Except.ok none) with
        | Except.error e => (saOps, Except.error (DriverError.nodeSelectorError e))
        | Except.ok nodeSelector =>
          let pod := match nodeSelector with
            | some ns => { pod with NodeSelector := ns }
            | none => pod
          match w.createPodResult with
          | Except.error e =>
            (saOps ++ [RemoteOp.createPod pod], Except.error (DriverError.createPodError e))
          | Except.ok _ =>
            match w.waitResult with
            | Except.error e =>
              (saOps ++ [RemoteOp.createPod pod, RemoteOp.waitPodRunning id],
               Except.error (DriverError.startupError e))
            | Except.ok _ =>
              if initFlag then
                let (copyOps, r) := doCopies w parsedConfig.Origin id 0 copyFromLocal
                (saOps ++ [RemoteOp.createPod pod, RemoteOp.waitPodRunning id] ++ copyOps, r)
              else
                (saOps ++ [RemoteOp.createPod pod, RemoteOp.waitPodRunning id], Except.ok ())

/-- Embeds `RunDevContainer`: derive the identity, best-effort create the
namespace, look up the persistent volume claim, create it (and switch
`initFlag` on) when absent, then run the shared container routine. -/
def RunDevContainer (k : Driver) (w : World)
    (parsedConfig : DevContainerConfig) (mergedConfig : MergedDevContainerConfig)
    (imageName : String) (workspaceMount : String) (labels : List String)
    (ide : String) (ideOptions : List (String × String))
    (imageDetails : ImageDetails) : List RemoteOp × Except DriverError Unit :=
  match k.collab.getID labels with
  | Except.error e => ([], Except.error (DriverError.idError e))
  | Except.ok id =>
    let nsOps : List RemoteOp :=
      if k.namespace_ ≠ "" ∧ k.config.CreateNamespace = "true" then
        [RemoteOp.createNamespace k.namespace_]
      else []
    match w.pvcLookup with
    | Except.error e => (nsOps ++ [RemoteOp.getPvc id], Except.error (DriverError.lookupError e))
    | Except.ok (some _) =>
      let (ops, r) := runContainer k w id parsedConfig mergedConfig imageName
        workspaceMount imageDetails false
      (nsOps ++ [RemoteOp.getPvc id] ++ ops, r)
    | Except.ok none =>
      match w.createPvcResult with
      | Except.error e =>
        (nsOps ++ [RemoteOp.getPvc id, RemoteOp.createPvc id],
         Except.error (DriverError.createVolumeError e))
      | Except.ok _ =>
        let (ops, r) := runContainer k w id parsedConfig mergedConfig imageName
          workspaceMount imageDetails true
        (nsOps ++ [RemoteOp.getPvc id, RemoteOp.createPvc id] ++ ops, r)

/-- Embeds `StartDevContainer`: look up the persisted snapshot; a missing one is
a not-found error; otherwise rerun the shared routine from the snapshot
with `initialize = false`. -/
def StartDevContainer (k : Driver) (w : World) (id : String)
    (labels : List String) : List RemoteOp × Except DriverError Unit :=
  match w.pvcLookup with
  | Except.error e => ([RemoteOp.getPvc id], Except.error (DriverError.lookupError e))
  | Except.ok none => ([RemoteOp.getPvc id], Except.error (DriverError.notFoundError id))
  | Except.ok (some containerInfo) =>
    let (ops, r) := runContainer k w id containerInfo.ParsedConfig
      containerInfo.MergedConfig containerInfo.ImageName
      containerInfo.WorkspaceMount containerInfo.ImageDetails false
    (RemoteOp.getPvc id :: ops, r)

/-- Is this operation a data copy? -/
def isCopy : RemoteOp → Bool
  | RemoteOp.copy _ _ _ => true
  | _ => false

/-- Is this operation a persistent-volume-claim creation? -/
def isCreatePvc : RemoteOp → Bool
  | RemoteOp.createPvc _ => true
  | _ => false

/-- Is this operation one of those issued after the workspace-mount
validation in `runContainer` (service-account creation, pod submission,
wait, copy)? -/
def isLateOp : RemoteOp → Bool
  | RemoteOp.createServiceAccount _ _ => true
  | RemoteOp.createPod _ => true
  | RemoteOp.waitPodRunning _ => true
  | RemoteOp.copy _ _ _ => true
  | _ => false

/-- The copy operations of a trace, in order. -/
def copiesOf (ops : List RemoteOp) : List RemoteOp := ops.filter isCopy

/-! Concrete fixtures used to instantiate the theorems. -/

/-- A bind-type workspace mount. -/
def wsMount : Mount := { Source := "/local/src", Target := "/ws", Type_ := "bind" }

/-- A bind mount to be seeded. -/
def bindMount : Mount := { Source := "/data", Target := "/mnt/data", Type_ := "bind" }

/-- A named volume mount. -/
def volMount : Mount := { Source := "cache", Target := "/cache", Type_ := "volume" }

/-- A mount of an unsupported type. -/
def otherMount : Mount := { Source := "x", Target := "/x", Type_ := "tmpfs" }

/-- Concrete image details. -/
def det0 : ImageDetails := { Entrypoint := ["/entry"], Cmd := ["run"] }

/-- Concrete parsed configuration. -/
def pc0 : DevContainerConfig := { Origin := "/proj/.devcontainer/devcontainer.json" }

/-- Concrete merged configuration: one bind mount, one unsupported mount,
one named volume mount. -/
def mc0 : MergedDevContainerConfig :=
  { Mounts := [bindMount, otherMount, volMount]
    ContainerEnv := [("FOO", "bar")]
    CapAdd := ["NET_ADMIN"]
    Privileged := some true }

/-- The merged configuration `mc0` without its unsupported mount. -/
def mc1 : MergedDevContainerConfig := { mc0 with Mounts := [bindMount, volMount] }

/-- Concrete collaborator functions: the empty mount string parses to an
empty target, anything else to the workspace mount. -/
def collab0 : Collaborators :=
  { getID := fun _ => Except.ok "myid"
    ParseMount := fun s =>
      if s = "" then { Source := "", Target := "", Type_ := "" } else wsMount
    getInitContainer := fun _ _ => Except.ok []
    GetContainerEntrypointAndArgs := fun _ _ => ("/entry", ["run"])
    parseResources := fun _ => { Requests := [], Limits := [] }
    parseLabels := fun _ => Except.ok [] }

/-- Concrete driver: namespace creation configured, no service account,
no node selector. -/
def k0 : Driver :=
  { namespace_ := "devns"
    config :=
      { CreateNamespace := "true", ServiceAccount := "", NodeSelector := "", Resources := "" }
    collab := collab0 }

/-- A world where the volume is absent and every remote call succeeds. -/
def okWorld : World :=
  { pvcLookup := Except.ok none
    createPvcResult := Except.ok ()
    createSaResult := Except.ok ()
    createPodResult := Except.ok ()
    waitResult := Except.ok ()
    copyResults := fun _ => Except.ok () }

/-- A concrete persisted snapshot. -/
def info0 : DevContainerInfo :=
  { ParsedConfig := pc0, MergedConfig := mc0, ImageDetails := det0
    ImageName := "img", WorkspaceMount := "wsmount", Labels := ["devpod.sh/id=x"] }

/-- A world where the volume already exists. -/
def existWorld : World := { okWorld with pvcLookup := Except.ok (some info0) }

/-- A world where the second copy (index 1) fails. -/
def failCopyWorld : World :=
  { okWorld with
    copyResults := fun j => if j = 1 then Except.error "disk full" else Except.ok () }

/-- The pod submitted for the fixture driver and inputs. -/
def pod0 : Pod :=
  buildPod k0 "myid" mc0 "img" det0 [] ""
    (volumeMountsOf (k0.collab.ParseMount "wsmount") mc0.Mounts)

section Lemmas

variable {k : Driver} {w : World}

theorem collectMounts_fst (ms : List Mount) : ∀ idx : Nat,
    (collectMounts idx ms).1 = ms.filter (fun m => m.Type_ == "bind") := by
  induction ms with
  | nil => intro idx; rfl
  | cons m rest ih =>
    intro idx
    simp only [collectMounts, List.filter_cons]
    by_cases hb : m.Type_ = "bind"
    · simp [hb, ih]
    · by_cases hv : m.Type_ = "volume" <;> simp [hb, hv, ih]

theorem collectMounts_snd (ms : List Mount) : ∀ idx : Nat,
    (collectMounts idx ms).2 = (ms.enumFrom idx).filterMap (fun p =>
      if p.2.Type_ == "bind" || p.2.Type_ == "volume" then
        some (getVolumeMount p.1 p.2)
      else none) := by
  induction ms with
  | nil => intro idx; rfl
  | cons m rest ih =>
    intro idx
    simp only [collectMounts, List.enumFrom, List.filterMap_cons]
    by_cases hb : m.Type_ = "bind"
    · simp [hb, ih]
    · by_cases hv : m.Type_ = "volume" <;> simp [hb, hv, ih]

theorem doCopies_ops {origin id : String} {op : RemoteOp} :
    ∀ (l : List Mount) (i : Nat), op ∈ (doCopies w origin id i l).1 →
      ∃ m, m ∈ l ∧ op = copyOp origin id m := by
  intro l
  induction l with
  | nil => intro i h; simp [doCopies] at h
  | cons m rest ih =>
    intro i h
    simp only [doCopies] at h
    cases hres : w.copyResults i with
    | error e =>
      rw [hres] at h
      simp at h
      exact ⟨m, by simp, h⟩
    | ok u =>
      rw [hres] at h
      simp at h
      rcases h with h | h
      · exact ⟨m, by simp, h⟩
      · rcases ih (i + 1) h with ⟨m', hm', he⟩
        exact ⟨m', by simp [hm'], he⟩

theorem doCopies_all_ok {origin id : String}
    (hok : ∀ j, w.copyResults j = Except.ok ()) :
    ∀ (l : List Mount) (i : Nat),
      doCopies w origin id i l = (l.map (copyOp origin id), Except.ok ()) := by
  intro l
  induction l with
  | nil => intro i; rfl
  | cons m rest ih =>
    intro i
    simp only [doCopies, hok i, ih (i + 1), List.map_cons]

theorem doCopies_fail {origin id : String} {e : String} :
    ∀ (l : List Mount) (s i : Nat),
      (∀ j, j < i → w.copyResults (s + j) = Except.ok ()) →
      w.copyResults (s + i) = Except.error e →
      i < l.length →
      doCopies w origin id s l =
        ((l.take (i + 1)).map (copyOp origin id),
         Except.error (DriverError.copyError e)) := by
  intro l
  induction l with
  | nil => intro s i _ _ hlt; simp at hlt
  | cons m rest ih =>
    intro s i hok hfail hlt
    cases i with
    | zero =>
      simp only [Nat.add_zero] at hfail
      simp [doCopies, hfail]
    | succ i' =>
      have h0 : w.copyResults s = Except.ok () := by
        have := hok 0 (Nat.succ_pos i')
        simpa using this
      have hok' : ∀ j, j < i' → w.copyResults (s + 1 + j) = Except.ok () := by
        intro j hj
        have := hok (j + 1) (Nat.succ_lt_succ hj)
        simpa [Nat.add_assoc, Nat.add_comm 1 j] using this
      have hfail' : w.copyResults (s + 1 + i') = Except.error e := by
        simpa [Nat.add_assoc, Nat.add_comm 1 i'] using hfail
      have hlt' : i' < rest.length := Nat.lt_of_succ_lt_succ (by simpa using hlt)
      simp [doCopies, h0, ih (s + 1) i' hok' hfail' hlt']

theorem runContainer_empty_target {id : String} {pc : DevContainerConfig}
    {mc : MergedDevContainerConfig} {img ws : String} {det : ImageDetails} {b : Bool}
    (hmt : (k.collab.ParseMount ws).Target = "") :
    runContainer k w id pc mc img ws det b =
      ([], Except.error (DriverError.configError "workspace mount target is empty")) := by
  simp [runContainer, hmt]

theorem runContainer_ops_classify {id : String} {pc : DevContainerConfig}
    {mc : MergedDevContainerConfig} {img ws : String} {det : ImageDetails} {b : Bool}
    {op : RemoteOp} (h : op ∈ (runContainer k w id pc mc img ws det b).1) :
    (∃ i n, op = RemoteOp.createServiceAccount i n) ∨
    (∃ p, op = RemoteOp.createPod p) ∨
    (∃ i, op = RemoteOp.waitPodRunning i) ∨
    (b = true ∧ ∃ o s t, op = RemoteOp.copy o s t) := by
  simp only [runContainer] at h
  split at h
  · simp at h
  · split at h
    · simp at h
    · split at h
      · simp at h
        exact Or.inl ⟨_, _, h.2⟩
      · split at h
        · simp at h
          exact Or.inl ⟨_, _, h.2⟩
        · split at h
          · simp at h
            rcases h with ⟨_, h⟩ | h
            · exact Or.inl ⟨_, _, h⟩
            · exact Or.inr (Or.inl ⟨_, h⟩)
          · split at h
            · simp at h
              rcases h with ⟨_, h⟩ | h | h
              · exact Or.inl ⟨_, _, h⟩
              · exact Or.inr (Or.inl ⟨_, h⟩)
              · exact Or.inr (Or.inr (Or.inl ⟨id, h⟩))
            · split at h
              next hb =>
                simp at h
                rcases h with ⟨_, h⟩ | h | h | h
                · exact Or.inl ⟨_, _, h⟩
                · exact Or.inr (Or.inl ⟨_, h⟩)
                · exact Or.inr (Or.inr (Or.inl ⟨id, h⟩))
                · rcases doCopies_ops _ _ h with ⟨m, _, he⟩
                  exact Or.inr (Or.inr (Or.inr ⟨hb, _, _, _, he⟩))
              next hb =>
                simp at h
                rcases h with ⟨_, h⟩ | h | h
                · exact Or.inl ⟨_, _, h⟩
                · exact Or.inr (Or.inl ⟨_, h⟩)
                · exact Or.inr (Or.inr (Or.inl ⟨id, h⟩))

theorem runContainer_createPod_fields {id : String} {pc : DevContainerConfig}
    {mc : MergedDevContainerConfig} {img ws : String} {det : ImageDetails} {b : Bool}
    {p : Pod} (h : RemoteOp.createPod p ∈ (runContainer k w id pc mc img ws det b).1) :
    p.Name = id ∧
    p.Volumes = [{ Name := "devpod", ClaimName := id }] ∧
    ∃ c, p.Containers = [c] ∧
      c.Env = mc.ContainerEnv ∧
      c.VolumeMounts = volumeMountsOf (k.collab.ParseMount ws) mc.Mounts ∧
      c.SecurityContext = some
        { Capabilities := mkCapabilities mc.CapAdd
          Privileged := mc.Privileged
          RunAsUser := some 0
          RunAsGroup := some 0
          RunAsNonRoot := some false } := by
  simp only [runContainer] at h
  split at h
  · simp at h
  · split at h
    · simp at h
    · split at h
      · simp at h
      · split at h
        · simp at h
        · split at h
          · simp at h
            subst h; split <;> exact ⟨rfl, rfl, _, rfl, rfl, rfl, rfl⟩
          · split at h
            · simp at h
              subst h; split <;> exact ⟨rfl, rfl, _, rfl, rfl, rfl, rfl⟩
            · split at h
              · simp at h
                rcases h with h | h
                · subst h; split <;> exact ⟨rfl, rfl, _, rfl, rfl, rfl, rfl⟩
                · rcases doCopies_ops _ _ h with ⟨m, _, he⟩
                  simp [copyOp] at he
              · simp at h
                subst h; split <;> exact ⟨rfl, rfl, _, rfl, rfl, rfl, rfl⟩

theorem runContainer_no_copy_of_false {id : String} {pc : DevContainerConfig}
    {mc : MergedDevContainerConfig} {img ws : String} {det : ImageDetails}
    {op : RemoteOp} (h : op ∈ (runContainer k w id pc mc img ws det false).1) :
    isCopy op = false := by
  rcases runContainer_ops_classify h with ⟨i, n, he⟩ | ⟨p, he⟩ | ⟨i, he⟩ | ⟨hb, _⟩
  · subst he; rfl
  · subst he; rfl
  · subst he; rfl
  · exact absurd hb (by simp)

theorem runContainer_snd_congr {id : String} {pc : DevContainerConfig}
    {mc₁ mc₂ : MergedDevContainerConfig} {img ws : String} {det : ImageDetails} {b : Bool}
    (hic : k.collab.getInitContainer mc₂ img = k.collab.getInitContainer mc₁ img)
    (hcp : copyFromLocalOf (k.collab.ParseMount ws) mc₂.Mounts
         = copyFromLocalOf (k.collab.ParseMount ws) mc₁.Mounts) :
    (runContainer k w id pc mc₂ img ws det b).2
      = (runContainer k w id pc mc₁ img ws det b).2 := by
  simp only [runContainer, hic, hcp]
  repeat' split
  all_goals rfl

end Lemmas

/-- Claim C10: `RunDevContainer` is independent of its `ide` and
`ideOptions` parameters: two calls differing only in those produce the
same operation trace and the same result. -/
theorem runDevContainer_ide_noninterference
    (k : Driver) (w : World) (pc : DevContainerConfig) (mc : MergedDevContainerConfig)
    (img ws : String) (labels : List String) (ide₁ ide₂ : String)
    (opts₁ opts₂ : List (String × String)) (det : ImageDetails) :
    RunDevContainer k w pc mc img ws labels ide₁ opts₁ det
      = RunDevContainer k w pc mc img ws labels ide₂ opts₂ det := rfl

/-- Claim C3: when the volume lookup reports no existing snapshot,
`StartDevContainer` returns a not-found error and its trace is exactly
the lookup: no volume creation, service-account creation, pod submission
or copy is performed. -/
theorem startDevContainer_notFound (k : Driver) (w : World) (id : String)
    (labels : List String) (h : w.pvcLookup = Except.ok none) :
    StartDevContainer k w id labels
      = ([RemoteOp.getPvc id], Except.error (DriverError.notFoundError id)) := by
  simp [StartDevContainer, h]

/-- Witness for claim C3 at the concrete fixture. -/
theorem startDevContainer_notFound_witness :
    okWorld.pvcLookup = Except.ok none ∧
    StartDevContainer k0 okWorld "myid" ["devpod.sh/id=x"]
      = ([RemoteOp.getPvc "myid"], Except.error (DriverError.notFoundError "myid")) :=
  ⟨rfl, startDevContainer_notFound k0 okWorld "myid" ["devpod.sh/id=x"] rfl⟩

/-- Claim C5: the sub-path of a volume mount is `devpod/` followed by the
source for a named `volume` mount and `devpod/` followed by the decimal
slot index otherwise; the workspace mount occupies slot 0 and the mount
at declared position `i` occupies slot `i + 1`. -/
theorem getVolumeMount_subPath_and_slots (idx : Nat) (mount : Mount)
    (ws : Mount) (mounts : List Mount) :
    (getVolumeMount idx mount).SubPath =
      (if mount.Type_ = "volume" ∧ mount.Source ≠ "" then "devpod/" ++ mount.Source
       else "devpod/" ++ toString idx) ∧
    volumeMountsOf ws mounts =
      getVolumeMount 0 ws ::
        (mounts.enumFrom 1).filterMap (fun p =>
          if p.2.Type_ == "bind" || p.2.Type_ == "volume" then
            some (getVolumeMount p.1 p.2)
          else none) := by
  constructor
  · simp only [getVolumeMount]
    split <;> rfl
  · simp [volumeMountsOf, collectMounts_snd]

/-- Counterexample to claim C1 as stated: with an empty workspace-mount
target the driver still creates the namespace, looks the volume up and
creates it before failing, so remote calls are issued. -/
theorem run_empty_target_remote_calls_counterexample :
    (k0.collab.ParseMount "").Target = "" ∧
    RemoteOp.getPvc "myid"
      ∈ (RunDevContainer k0 okWorld pc0 mc0 "img" "" ["devpod.sh/id=x"] "vscode" [] det0).1 := by
  constructor
  · rfl
  · decide

/-- Claim C1 (amended): with an empty workspace-mount target the run
fails with the configuration error and no service-account creation, pod
submission, wait or copy is issued; the namespace creation, volume
lookup and volume creation that precede the validation do still run. -/
theorem run_empty_target_fails_before_late_ops
    (k : Driver) (w : World) (pc : DevContainerConfig) (mc : MergedDevContainerConfig)
    (img ws : String) (labels : List String) (ide : String)
    (opts : List (String × String)) (det : ImageDetails) (id : String)
    (hmt : (k.collab.ParseMount ws).Target = "")
    (hid : k.collab.getID labels = Except.ok id)
    (hpvc : (∃ info, w.pvcLookup = Except.ok (some info)) ∨
            (w.pvcLookup = Except.ok none ∧ w.createPvcResult = Except.ok ())) :
    (∀ op ∈ (RunDevContainer k w pc mc img ws labels ide opts det).1,
      isLateOp op = false) ∧
    (RunDevContainer k w pc mc img ws labels ide opts det).2
      = Except.error (DriverError.configError "workspace mount target is empty") := by
  rcases hpvc with ⟨info, hpvc⟩ | ⟨hpvc, hcr⟩
  · constructor
    · intro op hop
      simp [RunDevContainer, hid, hpvc, runContainer_empty_target hmt] at hop
      rcases hop with ⟨_, h⟩ | h <;> subst h <;> rfl
    · simp [RunDevContainer, hid, hpvc, runContainer_empty_target hmt]
  · constructor
    · intro op hop
      simp [RunDevContainer, hid, hpvc, hcr, runContainer_empty_target hmt] at hop
      rcases hop with ⟨_, h⟩ | h | h <;> subst h <;> rfl
    · simp [RunDevContainer, hid, hpvc, hcr, runContainer_empty_target hmt]

/-- Witness for the amended claim C1 at the concrete fixture: the volume
creation is in the trace and is not a late operation, and the run fails
with the configuration error. -/
theorem run_empty_target_fails_before_late_ops_witness :
    (k0.collab.ParseMount "").Target = "" ∧
    k0.collab.getID ["devpod.sh/id=x"] = Except.ok "myid" ∧
    okWorld.pvcLookup = Except.ok none ∧ okWorld.createPvcResult = Except.ok () ∧
    RemoteOp.createPvc "myid"
      ∈ (RunDevContainer k0 okWorld pc0 mc0 "img" "" ["devpod.sh/id=x"] "vscode" [] det0).1 ∧
    isLateOp (RemoteOp.createPvc "myid") = false ∧
    (RunDevContainer k0 okWorld pc0 mc0 "img" "" ["devpod.sh/id=x"] "vscode" [] det0).2
      = Except.error (DriverError.configError "workspace mount target is empty") :=
  ⟨rfl, rfl, rfl, rfl, by decide,
    (run_empty_target_fails_before_late_ops k0 okWorld pc0 mc0 "img" "" ["devpod.sh/id=x"]
      "vscode" [] det0 "myid" rfl rfl (Or.inr ⟨rfl, rfl⟩)).1
      (RemoteOp.createPvc "myid") (by decide),
    (run_empty_target_fails_before_late_ops k0 okWorld pc0 mc0 "img" "" ["devpod.sh/id=x"]
      "vscode" [] det0 "myid" rfl rfl (Or.inr ⟨rfl, rfl⟩)).2⟩

/-- Claim C2: when the volume lookup finds an existing volume, the whole
run performs no volume-creation operation and no copy operation. -/
theorem run_existing_volume_no_create_no_copy
    (k : Driver) (w : World) (pc : DevContainerConfig) (mc : MergedDevContainerConfig)
    (img ws : String) (labels : List String) (ide : String)
    (opts : List (String × String)) (det : ImageDetails) (info : DevContainerInfo)
    (hpvc : w.pvcLookup = Except.ok (some info)) :
    ∀ op ∈ (RunDevContainer k w pc mc img ws labels ide opts det).1,
      isCreatePvc op = false ∧ isCopy op = false := by
  intro op hop
  simp only [RunDevContainer] at hop
  cases hgid : k.collab.getID labels with
  | error e => rw [hgid] at hop; simp at hop
  | ok id =>
    rw [hgid, hpvc] at hop
    simp at hop
    rcases hop with ⟨_, h⟩ | h | h
    · subst h; exact ⟨rfl, rfl⟩
    · subst h; exact ⟨rfl, rfl⟩
    · refine ⟨?_, runContainer_no_copy_of_false h⟩
      rcases runContainer_ops_classify h with ⟨i, n, he⟩ | ⟨p, he⟩ | ⟨i, he⟩ | ⟨hb, _⟩
      · subst he; rfl
      · subst he; rfl
      · subst he; rfl
      · exact absurd hb (by simp)

/-- Witness for claim C2: the fixture run with an existing volume issues
the volume lookup, and that operation is neither a creation nor a copy. -/
theorem run_existing_volume_no_create_no_copy_witness :
    existWorld.pvcLookup = Except.ok (some info0) ∧
    RemoteOp.getPvc "myid"
      ∈ (RunDevContainer k0 existWorld pc0 mc0 "img" "wsmount" ["devpod.sh/id=x"]
          "vscode" [] det0).1 ∧
    (isCreatePvc (RemoteOp.getPvc "myid") = false ∧ isCopy (RemoteOp.getPvc "myid") = false) :=
  ⟨rfl, by decide,
    run_existing_volume_no_create_no_copy k0 existWorld pc0 mc0 "img" "wsmount"
      ["devpod.sh/id=x"] "vscode" [] det0 info0 rfl (RemoteOp.getPvc "myid") (by decide)⟩

/-- Claim C6: every pod the driver submits runs its single main container
with user 0, group 0 and the non-root safeguard disabled, with the
configured capabilities and privileged flag layered on top. -/
theorem pod_security_context_root
    (k : Driver) (w : World) (id : String) (pc : DevContainerConfig)
    (mc : MergedDevContainerConfig) (img ws : String) (det : ImageDetails) (b : Bool)
    (p : Pod) (hp : RemoteOp.createPod p ∈ (runContainer k w id pc mc img ws det b).1) :
    ∃ c, p.Containers = [c] ∧
      c.SecurityContext = some
        { Capabilities := mkCapabilities mc.CapAdd
          Privileged := mc.Privileged
          RunAsUser := some 0
          RunAsGroup := some 0
          RunAsNonRoot := some false } := by
  rcases runContainer_createPod_fields hp with ⟨_, _, c, hc, _, _, hsec⟩
  exact ⟨c, hc, hsec⟩

/-- Witness for claim C6 at the concrete fixture pod. -/
theorem pod_security_context_root_witness :
    RemoteOp.createPod pod0
      ∈ (runContainer k0 okWorld "myid" pc0 mc0 "img" "wsmount" det0 false).1 ∧
    ∃ c, pod0.Containers = [c] ∧
      c.SecurityContext = some
        { Capabilities := mkCapabilities mc0.CapAdd
          Privileged := mc0.Privileged
          RunAsUser := some 0
          RunAsGroup := some 0
          RunAsNonRoot := some false } :=
  ⟨by decide,
    pod_security_context_root k0 okWorld "myid" pc0 mc0 "img" "wsmount" det0 false pod0
      (by decide)⟩

/-- Claim C9: every pod the driver submits is named after the identity
and references the persistent volume claim of the same name. -/
theorem pod_and_claim_share_identity
    (k : Driver) (w : World) (id : String) (pc : DevContainerConfig)
    (mc : MergedDevContainerConfig) (img ws : String) (det : ImageDetails) (b : Bool)
    (p : Pod) (hp : RemoteOp.createPod p ∈ (runContainer k w id pc mc img ws det b).1) :
    p.Name = id ∧ p.Volumes = [{ Name := "devpod", ClaimName := id }] := by
  rcases runContainer_createPod_fields hp with ⟨h1, h2, _⟩
  exact ⟨h1, h2⟩

/-- Witness for claim C9 at the concrete fixture pod. -/
theorem pod_and_claim_share_identity_witness :
    RemoteOp.createPod pod0
      ∈ (runContainer k0 okWorld "myid" pc0 mc0 "img" "wsmount" det0 false).1 ∧
    (pod0.Name = "myid" ∧ pod0.Volumes = [{ Name := "devpod", ClaimName := "myid" }]) :=
  ⟨by decide,
    pod_and_claim_share_identity k0 okWorld "myid" pc0 mc0 "img" "wsmount" det0 false pod0
      (by decide)⟩

theorem copiesOf_map_copyOp (o i : String) (l : List Mount) :
    copiesOf (l.map (copyOp o i)) = l.map (copyOp o i) := by
  induction l with
  | nil => rfl
  | cons m rest ih =>
    simp only [List.map_cons, copiesOf, List.filter_cons] at *
    simp [copyOp, isCopy, ih]

theorem getLast?_map_take (f : Mount → RemoteOp) :
    ∀ (l : List Mount) (i : Nat) (m : Mount), l.get? i = some m →
      ((l.take (i + 1)).map f).getLast? = some (f m) := by
  intro l
  induction l with
  | nil => intro i m h; simp at h
  | cons x xs ih =>
    intro i m h
    cases i with
    | zero =>
      rw [List.get?_cons_zero, Option.some.injEq] at h
      subst h
      rfl
    | succ i' =>
      rw [List.get?_cons_succ] at h
      have hrest := ih i' m h
      have hne : ((xs.take (i' + 1)).map f) ≠ [] := by
        intro hnil
        rw [hnil] at hrest
        simp at hrest
      calc ((x :: xs.take (i' + 1)).map f).getLast?
          = ([f x] ++ (xs.take (i' + 1)).map f).getLast? := by simp
        _ = ((xs.take (i' + 1)).map f).getLast? := List.getLast?_append_of_ne_nil _ hne
        _ = some (f m) := hrest

/-- Claim C7: a mount whose type is neither `bind` nor `volume` never
enters the copy list; every volume mount of the pod comes from the
workspace mount or from a supported declared mount; and inserting such a
mount into the declared mounts does not change the run's result, as long
as the init-container collaborator does not distinguish the two
configurations. -/
theorem unsupported_mounts_skipped
    (m ws : Mount) (mounts : List Mount) (vm : VolumeMount)
    (k : Driver) (w : World) (id : String) (pc : DevContainerConfig)
    (mc₁ mc₂ : MergedDevContainerConfig) (img wsStr : String) (det : ImageDetails)
    (b : Bool) (ms₁ ms₂ : List Mount)
    (h1 : m.Type_ ≠ "bind") (h2 : m.Type_ ≠ "volume") (hne : m ≠ ws)
    (hvm : vm ∈ volumeMountsOf ws mounts)
    (hm1 : mc₁.Mounts = ms₁ ++ ms₂) (hm2 : mc₂.Mounts = ms₁ ++ m :: ms₂)
    (hic : k.collab.getInitContainer mc₂ img = k.collab.getInitContainer mc₁ img) :
    m ∉ copyFromLocalOf ws mounts ∧
    (vm = getVolumeMount 0 ws ∨
      ∃ i x, (i, x) ∈ mounts.enumFrom 1 ∧ (x.Type_ = "bind" ∨ x.Type_ = "volume") ∧
        vm = getVolumeMount i x) ∧
    (runContainer k w id pc mc₂ img wsStr det b).2
      = (runContainer k w id pc mc₁ img wsStr det b).2 := by
  refine ⟨?_, ?_, ?_⟩
  · intro hmem
    simp [copyFromLocalOf, collectMounts_fst, List.mem_filter] at hmem
    rcases hmem with hmem | ⟨_, hb⟩
    · exact hne hmem
    · exact h1 hb
  · simp only [volumeMountsOf, collectMounts_snd] at hvm
    rcases List.mem_cons.mp hvm with h | h
    · exact Or.inl h
    · rcases List.mem_filterMap.mp h with ⟨⟨i, x⟩, hmem, heq⟩
      by_cases hx : (x.Type_ == "bind" || x.Type_ == "volume") = true
      · rw [if_pos hx] at heq
        refine Or.inr ⟨i, x, hmem, ?_, (Option.some.injEq _ _).mp heq |>.symm⟩
        rcases Bool.or_eq_true_iff.mp hx with hb | hb
        · exact Or.inl (by simpa using hb)
        · exact Or.inr (by simpa using hb)
      · rw [if_neg hx] at heq
        cases heq
  · apply runContainer_snd_congr hic
    rw [hm1, hm2]
    simp [copyFromLocalOf, collectMounts_fst, List.filter_append, List.filter_cons, h1]

/-- Witness for claim C7 at the concrete fixture: the `tmpfs` mount is
skipped and its insertion between the bind and volume mounts leaves the
run's result unchanged. -/
theorem unsupported_mounts_skipped_witness :
    otherMount.Type_ ≠ "bind" ∧ otherMount.Type_ ≠ "volume" ∧ otherMount ≠ wsMount ∧
    getVolumeMount 0 wsMount ∈ volumeMountsOf wsMount mc0.Mounts ∧
    mc1.Mounts = [bindMount] ++ [volMount] ∧
    mc0.Mounts = [bindMount] ++ otherMount :: [volMount] ∧
    k0.collab.getInitContainer mc0 "img" = k0.collab.getInitContainer mc1 "img" ∧
    (otherMount ∉ copyFromLocalOf wsMount mc0.Mounts ∧
     (getVolumeMount 0 wsMount = getVolumeMount 0 wsMount ∨
       ∃ i x, (i, x) ∈ mc0.Mounts.enumFrom 1 ∧
         (x.Type_ = "bind" ∨ x.Type_ = "volume") ∧
         getVolumeMount 0 wsMount = getVolumeMount i x) ∧
     (runContainer k0 okWorld "myid" pc0 mc0 "img" "wsmount" det0 true).2
       = (runContainer k0 okWorld "myid" pc0 mc1 "img" "wsmount" det0 true).2) :=
  ⟨by decide, by decide, by decide, by decide, rfl, rfl, rfl,
    unsupported_mounts_skipped otherMount wsMount mc0.Mounts (getVolumeMount 0 wsMount)
      k0 okWorld "myid" pc0 mc1 mc0 "img" "wsmount" det0 true [bindMount] [volMount]
      (by decide) (by decide) (by decide) (by decide) rfl rfl rfl⟩

theorem runContainer_init_shape (k : Driver) (w : World)
    {id : String} {pc : DevContainerConfig} {mc : MergedDevContainerConfig}
    {img ws : String} {det : ImageDetails} {ics : List Container}
    (hmt : (k.collab.ParseMount ws).Target ≠ "")
    (hic : k.collab.getInitContainer mc img = Except.ok ics)
    (hsa : w.createSaResult = Except.ok ())
    (hns : k.config.NodeSelector = "" ∨
           ∃ ls, k.collab.parseLabels k.config.NodeSelector = Except.ok ls)
    (hpod : w.createPodResult = Except.ok ())
    (hwait : w.waitResult = Except.ok ()) :
    ∃ pre,
      runContainer k w id pc mc img ws det true
        = (pre ++ (doCopies w pc.Origin id 0
             (copyFromLocalOf (k.collab.ParseMount ws) mc.Mounts)).1,
           (doCopies w pc.Origin id 0
             (copyFromLocalOf (k.collab.ParseMount ws) mc.Mounts)).2) ∧
      copiesOf pre = [] := by
  rcases hns with hns | ⟨ls, hls⟩
  · by_cases hSA : k.config.ServiceAccount = ""
    · refine ⟨[RemoteOp.createPod (buildPod k id mc img det ics ""
        (volumeMountsOf (k.collab.ParseMount ws) mc.Mounts)),
        RemoteOp.waitPodRunning id], ?_, rfl⟩
      simp [runContainer, hmt, hic, hsa, hpod, hwait, hSA, hns]
    · refine ⟨[RemoteOp.createServiceAccount id k.config.ServiceAccount,
        RemoteOp.createPod (buildPod k id mc img det ics k.config.ServiceAccount
          (volumeMountsOf (k.collab.ParseMount ws) mc.Mounts)),
        RemoteOp.waitPodRunning id], ?_, rfl⟩
      simp [runContainer, hmt, hic, hsa, hpod, hwait, hSA, hns]
  · by_cases hNS : k.config.NodeSelector = ""
    · by_cases hSA : k.config.ServiceAccount = ""
      · refine ⟨[RemoteOp.createPod (buildPod k id mc img det ics ""
          (volumeMountsOf (k.collab.ParseMount ws) mc.Mounts)),
          RemoteOp.waitPodRunning id], ?_, rfl⟩
        simp [runContainer, hmt, hic, hsa, hpod, hwait, hSA, hNS]
      · refine ⟨[RemoteOp.createServiceAccount id k.config.ServiceAccount,
          RemoteOp.createPod (buildPod k id mc img det ics k.config.ServiceAccount
            (volumeMountsOf (k.collab.ParseMount ws) mc.Mounts)),
          RemoteOp.waitPodRunning id], ?_, rfl⟩
        simp [runContainer, hmt, hic, hsa, hpod, hwait, hSA, hNS]
    · by_cases hSA : k.config.ServiceAccount = ""
      · refine ⟨[RemoteOp.createPod { buildPod k id mc img det ics ""
            (volumeMountsOf (k.collab.ParseMount ws) mc.Mounts) with NodeSelector := ls },
          RemoteOp.waitPodRunning id], ?_, rfl⟩
        simp [runContainer, hmt, hic, hsa, hpod, hwait, hSA, hNS, hls, Except.map]
      · refine ⟨[RemoteOp.createServiceAccount id k.config.ServiceAccount,
          RemoteOp.createPod { buildPod k id mc img det ics k.config.ServiceAccount
            (volumeMountsOf (k.collab.ParseMount ws) mc.Mounts) with NodeSelector := ls },
          RemoteOp.waitPodRunning id], ?_, rfl⟩
        simp [runContainer, hmt, hic, hsa, hpod, hwait, hSA, hNS, hls, Except.map]

/-- Claim C4: when initializing with every remote step succeeding, the
copies performed are exactly one for the workspace mount first and then
one per `bind` mount in declared order; without initialization no copy
is performed at all (for any world `w'`). -/
theorem seeding_copies_exact
    (k : Driver) (w : World) (id : String) (pc : DevContainerConfig)
    (mc : MergedDevContainerConfig) (img ws : String) (det : ImageDetails)
    (ics : List Container) (w' : World)
    (hmt : (k.collab.ParseMount ws).Target ≠ "")
    (hic : k.collab.getInitContainer mc img = Except.ok ics)
    (hsa : w.createSaResult = Except.ok ())
    (hns : k.config.NodeSelector = "" ∨
           ∃ ls, k.collab.parseLabels k.config.NodeSelector = Except.ok ls)
    (hpod : w.createPodResult = Except.ok ())
    (hwait : w.waitResult = Except.ok ())
    (hcopy : ∀ j, w.copyResults j = Except.ok ()) :
    copiesOf (runContainer k w id pc mc img ws det true).1
      = (copyFromLocalOf (k.collab.ParseMount ws) mc.Mounts).map (copyOp pc.Origin id) ∧
    copyFromLocalOf (k.collab.ParseMount ws) mc.Mounts
      = k.collab.ParseMount ws :: mc.Mounts.filter (fun m => m.Type_ == "bind") ∧
    copiesOf (runContainer k w' id pc mc img ws det false).1 = [] := by
  refine ⟨?_, ?_, ?_⟩
  · rcases runContainer_init_shape k w hmt hic hsa hns hpod hwait with ⟨pre, heq, hpre⟩
    have hdc := @doCopies_all_ok w pc.Origin id hcopy
      (copyFromLocalOf (k.collab.ParseMount ws) mc.Mounts) 0
    rw [heq, hdc]
    simp only [copiesOf, List.filter_append] at *
    rw [hpre]
    simp [copiesOf_map_copyOp]
    intro a ha
    rfl
  · simp [copyFromLocalOf, collectMounts_fst]
  · rw [copiesOf, List.filter_eq_nil_iff]
    intro op hop
    simp [runContainer_no_copy_of_false hop]

/-- Witness for claim C4 at the concrete fixture: two mounts survive as
copies, the workspace mount first, then the bind mount; the unsupported
and volume mounts are not copied; a restart run copies nothing. -/
theorem seeding_copies_exact_witness :
    (k0.collab.ParseMount "wsmount").Target ≠ "" ∧
    k0.collab.getInitContainer mc0 "img" = Except.ok [] ∧
    okWorld.createSaResult = Except.ok () ∧
    k0.config.NodeSelector = "" ∧
    okWorld.createPodResult = Except.ok () ∧ okWorld.waitResult = Except.ok () ∧
    (copiesOf (runContainer k0 okWorld "myid" pc0 mc0 "img" "wsmount" det0 true).1
       = (copyFromLocalOf (k0.collab.ParseMount "wsmount") mc0.Mounts).map
           (copyOp pc0.Origin "myid") ∧
     copyFromLocalOf (k0.collab.ParseMount "wsmount") mc0.Mounts
       = k0.collab.ParseMount "wsmount" :: mc0.Mounts.filter (fun m => m.Type_ == "bind") ∧
     copiesOf (runContainer k0 existWorld "myid" pc0 mc0 "img" "wsmount" det0 false).1 = []) :=
  ⟨by decide, rfl, rfl, rfl, rfl, rfl,
    seeding_copies_exact k0 okWorld "myid" pc0 mc0 "img" "wsmount" det0 [] existWorld
      (by decide) rfl rfl (Or.inl rfl) rfl rfl (fun _ => rfl)⟩

/-- Claim C8: when the copy at index `i` fails, the run returns the copy
error, exactly the copies up to and including `i` appear in the trace in
order, and the failing copy is the last operation of the run: nothing is
rolled back or deleted afterwards. -/
theorem copy_failure_aborts
    (k : Driver) (w : World) (id : String) (pc : DevContainerConfig)
    (mc : MergedDevContainerConfig) (img ws : String) (det : ImageDetails)
    (ics : List Container) (i : Nat) (e : String) (m : Mount)
    (hmt : (k.collab.ParseMount ws).Target ≠ "")
    (hic : k.collab.getInitContainer mc img = Except.ok ics)
    (hsa : w.createSaResult = Except.ok ())
    (hns : k.config.NodeSelector = "" ∨
           ∃ ls, k.collab.parseLabels k.config.NodeSelector = Except.ok ls)
    (hpod : w.createPodResult = Except.ok ())
    (hwait : w.waitResult = Except.ok ())
    (hok : ∀ j, j < i → w.copyResults j = Except.ok ())
    (hfail : w.copyResults i = Except.error e)
    (hm : (copyFromLocalOf (k.collab.ParseMount ws) mc.Mounts).get? i = some m) :
    (runContainer k w id pc mc img ws det true).2
      = Except.error (DriverError.copyError e) ∧
    copiesOf (runContainer k w id pc mc img ws det true).1
      = ((copyFromLocalOf (k.collab.ParseMount ws) mc.Mounts).take (i + 1)).map
          (copyOp pc.Origin id) ∧
    (runContainer k w id pc mc img ws det true).1.getLast?
      = some (copyOp pc.Origin id m) := by
  have hlt : i < (copyFromLocalOf (k.collab.ParseMount ws) mc.Mounts).length :=
    (List.get?_eq_some.mp hm).1
  have hdc := @doCopies_fail w pc.Origin id e
    (copyFromLocalOf (k.collab.ParseMount ws) mc.Mounts) 0 i
    (fun j hj => by simpa using hok j hj) (by simpa using hfail) hlt
  have hlast := getLast?_map_take (copyOp pc.Origin id) _ i m hm
  have hnn : ((copyFromLocalOf (k.collab.ParseMount ws) mc.Mounts).take (i + 1)).map
      (copyOp pc.Origin id) ≠ [] := by
    intro hnil
    rw [hnil] at hlast
    simp at hlast
  rcases runContainer_init_shape k w hmt hic hsa hns hpod hwait with ⟨pre, heq, hpre⟩
  refine ⟨?_, ?_, ?_⟩
  · rw [heq, hdc]
  · rw [heq, hdc]
    simp only [copiesOf, List.filter_append] at *
    rw [hpre]
    simp [copiesOf_map_copyOp]
    intro a ha
    rcases List.mem_map.mp (List.mem_of_mem_take ha) with ⟨x, _, rfl⟩
    rfl
  · rw [heq, hdc]
    exact (List.getLast?_append_of_ne_nil pre hnn).trans hlast

/-- Witness for claim C8 at the concrete fixture: the second copy (index
1, the bind mount) fails, the run aborts with the copy error, both
issued copies remain in order and the failing copy is the last
operation. -/
theorem copy_failure_aborts_witness :
    (k0.collab.ParseMount "wsmount").Target ≠ "" ∧
    k0.collab.getInitContainer mc0 "img" = Except.ok [] ∧
    failCopyWorld.createSaResult = Except.ok () ∧
    k0.config.NodeSelector = "" ∧
    failCopyWorld.createPodResult = Except.ok () ∧
    failCopyWorld.waitResult = Except.ok () ∧
    failCopyWorld.copyResults 0 = Except.ok () ∧
    failCopyWorld.copyResults 1 = Except.error "disk full" ∧
    (copyFromLocalOf (k0.collab.ParseMount "wsmount") mc0.Mounts).get? 1 = some bindMount ∧
    ((runContainer k0 failCopyWorld "myid" pc0 mc0 "img" "wsmount" det0 true).2
       = Except.error (DriverError.copyError "disk full") ∧
     copiesOf (runContainer k0 failCopyWorld "myid" pc0 mc0 "img" "wsmount" det0 true).1
       = ((copyFromLocalOf (k0.collab.ParseMount "wsmount") mc0.Mounts).take 2).map
           (copyOp pc0.Origin "myid") ∧
     (runContainer k0 failCopyWorld "myid" pc0 mc0 "img" "wsmount" det0 true).1.getLast?
       = some (copyOp pc0.Origin "myid" bindMount)) :=
  ⟨by decide, rfl, rfl, rfl, rfl, rfl, rfl, rfl, by decide,
    copy_failure_aborts k0 failCopyWorld "myid" pc0 mc0 "img" "wsmount" det0 [] 1
      "disk full" bindMount (by decide) rfl rfl (Or.inl rfl) rfl rfl
      (fun j hj => by have hj0 : j = 0 := by omega
                      subst hj0; rfl) rfl (by decide)⟩

end KubernetesDriver
